import Mathlib

/-!
# Verification of the DACTP SDK lending core

Shallow embedding of the DACTP SDK (TypeScript) in Lean 4, with theorems
checking the natural-language specification against the code.

JavaScript numbers are modelled as rationals (every numeric literal and
comparison occurring in these code paths is exact in ℚ).  Fallible calls to
the Stellar RPC layer are modelled as `Except`-valued oracle inputs: each SDK
method is embedded as a pure function of the outcome of the underlying
`simulateCall` / `buildContractTx` invocation.
-/

namespace DactpSpec

/-- A JavaScript value as observed at the untyped boundary of
`StellarClient.simulateCall` (the parsed simulation result). -/
inductive JSVal where
  | num (q : ℚ)
  | str (s : String)
  | boolean (b : Bool)
  | null
  | undef
deriving DecidableEq

/-- JavaScript truthiness, as applied by `Boolean(result)` in
`AgentManager.isAuthorized` (ℚ has no NaN, every other case is exact). -/
def truthy : JSVal → Bool
  | .num q => q != 0
  | .str s => s != ""
  | .boolean b => b
  | .null => false
  | .undef => false

/-- `ReputationTier` from `src/types/Reputation.ts` (shape shared with the
compiled `dist/types` output). -/
structure ReputationTier where
  tier : ℕ
  name : String
  minScore : ℚ
  maxScore : ℚ
  maxLoanAmount : ℚ
  color : String
  description : String
deriving DecidableEq

/-- `REPUTATION_TIERS[0]` from `dist/types` (`Reputation.js`). -/
def tier0 : ReputationTier :=
  { tier := 0, name := "No Credit", minScore := 0, maxScore := 49
    maxLoanAmount := 0, color := "#ef4444"
    description := "No lending access - build reputation first" }

/-- `REPUTATION_TIERS[1]`. -/
def tier1 : ReputationTier :=
  { tier := 1, name := "Basic", minScore := 50, maxScore := 59
    maxLoanAmount := 1/2, color := "#f97316"
    description := "Small loans available - prove your reliability" }

/-- `REPUTATION_TIERS[2]`. -/
def tier2 : ReputationTier :=
  { tier := 2, name := "Good", minScore := 60, maxScore := 74
    maxLoanAmount := 2, color := "#eab308"
    description := "Moderate loans available - good track record" }

/-- `REPUTATION_TIERS[3]`. -/
def tier3 : ReputationTier :=
  { tier := 3, name := "Excellent", minScore := 75, maxScore := 89
    maxLoanAmount := 5, color := "#84cc16"
    description := "Large loans available - excellent reputation" }

/-- `REPUTATION_TIERS[4]`. -/
def tier4 : ReputationTier :=
  { tier := 4, name := "Elite", minScore := 90, maxScore := 100
    maxLoanAmount := 10, color := "#22c55e"
    description := "Maximum loans available - elite status" }

/-- The `REPUTATION_TIERS` constant. -/
def REPUTATION_TIERS : List ReputationTier := [tier0, tier1, tier2, tier3, tier4]

/-- The `REPUTATION_DELTAS` configuration table. -/
structure ReputationDeltas where
  EARLY_PAYMENT : ℤ
  ON_TIME_PAYMENT : ℤ
  LATE_PAYMENT : ℤ
  DEFAULT : ℤ
  SUCCESSFUL_TRADE : ℤ
  FAILED_TRADE : ℤ
  STAKE_REWARD : ℤ
  GOVERNANCE_PARTICIPATION : ℤ

/-- `REPUTATION_DELTAS` from `dist/types` (`Reputation.js`). -/
def REPUTATION_DELTAS : ReputationDeltas :=
  { EARLY_PAYMENT := 12, ON_TIME_PAYMENT := 8, LATE_PAYMENT := -5
    DEFAULT := -25, SUCCESSFUL_TRADE := 2, FAILED_TRADE := -5
    STAKE_REWARD := 1, GOVERNANCE_PARTICIPATION := 3 }

/-- The `for (const tier of REPUTATION_TIERS)` loop body of
`ReputationManager.getTier`: first tier whose closed band contains `score`. -/
def findTier : List ReputationTier → ℚ → Option ReputationTier
  | [], _ => none
  | t :: ts, score =>
      if t.minScore ≤ score ∧ score ≤ t.maxScore then some t else findTier ts score

/-- `ReputationManager.getTier`: the loop over `REPUTATION_TIERS`, falling
back to `REPUTATION_TIERS[0]` when no band matches. -/
def getTier (score : ℚ) : ReputationTier :=
  match findTier REPUTATION_TIERS score with
  | some t => t
  | none => tier0

/-- `ReputationManager.getMaxLoanAmount`. -/
def getMaxLoanAmount (score : ℚ) : ℚ :=
  (getTier score).maxLoanAmount

/-- `ReputationScore` result shape (`lastUpdated: Date.now()` — wall-clock
time — is omitted, no claim concerns it). -/
structure ReputationScore where
  score : ℚ
  tier : ReputationTier
deriving DecidableEq

/-- `ReputationManager.predictNewScore`:
`Math.max(0, Math.min(100, currentScore + delta))` and its tier. -/
def predictNewScore (currentScore delta : ℚ) : ReputationScore :=
  let newScore := max 0 (min 100 (currentScore + delta))
  { score := newScore, tier := getTier newScore }

/-- The spec's `clamp(x, lo, hi)` (spec §3 / §4.2), written from the spec's
words for comparison with the source formula. -/
def clamp {α : Type} [LinearOrder α] (x lo hi : α) : α :=
  min hi (max lo x)

/-- `AuthorizationResult` from `src/types/Agent.ts`. -/
structure AuthorizationResult where
  authorized : Bool
  reason : Option String
deriving DecidableEq

/-- `AgentManager.isAuthorized`, as a function of the outcome of the
underlying `simulateCall` (`.error` = the RPC call threw). -/
def isAuthorized (sim : Except String JSVal) : AuthorizationResult :=
  match sim with
  | .ok result =>
      { authorized := truthy result
        reason := if truthy result then none
                  else some "Agent not authorized or amount exceeds limit" }
  | .error msg =>
      { authorized := false
        reason := some ("Authorization check failed: " ++ msg) }

/-- `ReputationManager.getScore`, as a function of the `simulateCall`
outcome: a non-numeric result or a thrown error both yield the default
score 50. -/
def getScore (sim : Except String JSVal) : ReputationScore :=
  match sim with
  | .ok v =>
      let numericScore : ℚ := match v with | .num q => q | _ => 50
      { score := numericScore, tier := getTier numericScore }
  | .error _ =>
      { score := 50, tier := getTier 50 }

/-- `AgentManager.getInfo`, as a function of the `simulateCall` outcome: on a
thrown error it logs and returns `null` (here `JSVal.null`). -/
def getInfo (sim : Except String JSVal) : JSVal :=
  match sim with
  | .ok result => result
  | .error _ => .null

/-- The distinct denial branches of `DACTP.canPerformAction` /
`StellarLendIntegration.processLoanRequest`; each constructor corresponds to
one distinct reason string template in the source. -/
inductive DenialReason where
  | authFailure (msg : Option String)
  | insufficientReputation (required current : ℚ)
  | amountExceedsLimit
  | businessCheck (msg : String)
deriving DecidableEq

/-- Result shape of `DACTP.canPerformAction`. -/
structure CanPerformResult where
  canPerform : Bool
  reason : Option DenialReason
  currentReputation : Option ℚ
  maxAllowed : Option ℚ
deriving DecidableEq

/-- `DACTP.canPerformAction`, as a function of the authorization-check result,
the reputation score read via `ReputationManager.getScore`, the requested
amount, and the `minimumReputation` threshold. -/
def canPerformAction (authResult : AuthorizationResult) (score : ℚ)
    (amount : ℚ) (minimumReputation : ℚ) : CanPerformResult :=
  if ¬ authResult.authorized then
    { canPerform := false
      reason := some (.authFailure authResult.reason)
      currentReputation := none, maxAllowed := none }
  else if score < minimumReputation then
    { canPerform := false
      reason := some (.insufficientReputation minimumReputation score)
      currentReputation := some score, maxAllowed := none }
  else if amount > getMaxLoanAmount score then
    { canPerform := false
      reason := some .amountExceedsLimit
      currentReputation := some score, maxAllowed := some (getMaxLoanAmount score) }
  else
    { canPerform := true, reason := none
      currentReputation := some score, maxAllowed := some (getMaxLoanAmount score) }

/-- `StellarLendIntegration.calculateInterestRate`. -/
def calculateInterestRate (reputation : ℚ) : ℚ :=
  let baseRate : ℚ := 12/100
  let reputationDiscount := max 0 ((reputation - 50) / 100)
  max (5/100) (baseRate * (1 - reputationDiscount))

/-- Result shape of `StellarLendIntegration.processLoanRequest`. -/
structure LoanRequestResult where
  approved : Bool
  reason : Option DenialReason
  maxAllowed : Option ℚ
  interestRate : Option ℚ
deriving DecidableEq

/-- `StellarLendIntegration.performBusinessChecks`. -/
def performBusinessChecks (amount : ℚ) : Bool × Option String :=
  if amount > 1000 then (false, some "Amount exceeds protocol maximum")
  else (true, none)

/-- `StellarLendIntegration.processLoanRequest`, as a function of the
authorization-check result, the agent's reputation score and the requested
amount; it calls `canPerformAction` with `minimumReputation = 60`. -/
def processLoanRequest (authResult : AuthorizationResult) (score : ℚ)
    (amount : ℚ) : LoanRequestResult :=
  let canBorrow := canPerformAction authResult score amount 60
  if ¬ canBorrow.canPerform then
    { approved := false, reason := canBorrow.reason
      maxAllowed := canBorrow.maxAllowed, interestRate := none }
  else
    let interestRate := calculateInterestRate score
    let businessChecks := performBusinessChecks amount
    if ¬ businessChecks.1 then
      { approved := false
        reason := some (.businessCheck (businessChecks.2.getD ""))
        maxAllowed := none, interestRate := none }
    else
      { approved := true, reason := none
        maxAllowed := canBorrow.maxAllowed, interestRate := some interestRate }

/-- `TxOptions` from `src/types/Common.ts`: `signAndSend?: boolean`
(`none` = the field is absent/undefined). -/
structure TxOptions where
  signAndSend : Option Bool := none
deriving DecidableEq

/-- `TxResult` from `src/types/Common.ts`. -/
structure TxResult where
  hash : String
  success : Bool
deriving DecidableEq

/-- `ErrorCodes` from `src/types/Common.ts`. -/
inductive ErrorCode where
  | NETWORK_ERROR
  | CONTRACT_ERROR
  | VALIDATION_ERROR
  | WALLET_ERROR
  | UNAUTHORIZED
  | INSUFFICIENT_REPUTATION
deriving DecidableEq

/-- `DACTPError` (message and code; the `details` payload is omitted). -/
structure DACTPError where
  message : String
  code : ErrorCode
deriving DecidableEq

/-- The message of the inner `WALLET_ERROR` throw shared by
`AgentManager.register`, `AgentManager.revoke` and
`ReputationManager.updateScore`. -/
def walletNotImplementedMsg : String :=
  "Wallet signing not implemented yet. Use signAndSend: false to get unsigned XDR."

/-- The shared try/catch skeleton of the three mutating SDK methods: if
`options.signAndSend === false`, build the transaction and return its
unsigned XDR as `hash` with `success: true`; otherwise throw a `DACTPError`
with `WALLET_ERROR`, which the enclosing catch rewraps with the
method-specific prefix under `CONTRACT_ERROR`.  `buildResult` is the outcome
of the `stellar.buildContractTx` call (`.ok xdr` = `tx.toXDR()`). -/
def mutatingSdkCall (prefixMsg : String) (options : TxOptions)
    (buildResult : Except String String) : Except DACTPError TxResult :=
  if options.signAndSend = some false then
    match buildResult with
    | .ok xdr => .ok { hash := xdr, success := true }
    | .error m => .error { message := prefixMsg ++ m, code := .CONTRACT_ERROR }
  else
    .error { message := prefixMsg ++ walletNotImplementedMsg, code := .CONTRACT_ERROR }

/-- `AgentManager.register`. -/
def register (options : TxOptions) (buildResult : Except String String) :
    Except DACTPError TxResult :=
  mutatingSdkCall "Agent registration failed: " options buildResult

/-- `AgentManager.revoke`. -/
def revoke (options : TxOptions) (buildResult : Except String String) :
    Except DACTPError TxResult :=
  mutatingSdkCall "Agent revocation failed: " options buildResult

/-- `ReputationManager.updateScore`. -/
def updateScore (options : TxOptions) (buildResult : Except String String) :
    Except DACTPError TxResult :=
  mutatingSdkCall "Reputation update failed: " options buildResult

/-- Result shape of `StellarLendIntegration.processLoanRepayment`. -/
structure RepaymentResult where
  success : Bool
  reputationDelta : ℤ
deriving DecidableEq

/-- `StellarLendIntegration.processLoanRepayment`: selects the reputation
delta from the `isEarlyPayment` / `isLatePayment` flags, then calls
`dactp.updateReputation` (whose outcome is the `updateResult` oracle input);
a thrown error is caught and yields `success: false` with delta 0. -/
def processLoanRepayment (isEarlyPayment isLatePayment : Bool)
    (updateResult : Except DACTPError TxResult) : RepaymentResult :=
  let reputationDelta : ℤ := if isEarlyPayment then 12 else if isLatePayment then -5 else 8
  match updateResult with
  | .ok _ => { success := true, reputationDelta := reputationDelta }
  | .error _ => { success := false, reputationDelta := 0 }

/-- The reputation delta that `StellarLendIntegration.processLoanDefault`
passes to `dactp.updateReputation` ("Heavy penalty"). -/
def processLoanDefaultDelta : ℤ := -25

/-- JS `String.prototype.startsWith`, over strings as character lists. -/
def jsStartsWith (s pre' : List Char) : Bool :=
  pre'.isPrefixOf s

/-- `DACTP.isValidAgentAddress`: a string starting with `'G'` of length 56
(the `typeof address === 'string'` guard is the Lean type). -/
def isValidAgentAddress (address : List Char) : Bool :=
  jsStartsWith address ['G'] && address.length == 56

/-- `DACTP.isValidContractAddress`: a string starting with `'C'` of
length 56. -/
def isValidContractAddress (address : List Char) : Bool :=
  jsStartsWith address ['C'] && address.length == 56

/-! ## Spec-modelled on-chain core

The Soroban contracts (Agent Registry, Reputation Ledger, Loan Engine) are
not among the SDK sources — the SDK only builds transactions that invoke
them.  The definitions below are modelled from the spec, as marked in each
doc comment. -/

/-- Modelled from the spec: twelve hours, in seconds (spec §4.3 step 3 uses
`due_at − 12h`; on-chain time is in seconds). -/
def TWELVE_HOURS : ℤ := 12 * 3600

/-- Modelled from the spec: the `repay_loan` timing classification's early
branch, `now ≤ due_at − 12h` (§4.3 step 3).  The Rust contract computing
this is not in the SDK sources. -/
def repayIsEarly (now dueAt : ℤ) : Bool :=
  now ≤ dueAt - TWELVE_HOURS

/-- Modelled from the spec: the `repay_loan` timing classification's late
branch, `due_at < now` (§4.3 step 3). -/
def repayIsLate (now dueAt : ℤ) : Bool :=
  dueAt < now

/-- Agent record of the Registry (spec §3): owner, scopes, spending cap and
the one-way `revoked` flag. -/
structure AgentRecord where
  owner : String
  scopes : List String
  maxAmount : ℕ
  revoked : Bool
deriving DecidableEq

/-- Registry storage: one record per agent identity. -/
def Registry : Type := List (String × AgentRecord)

/-- Registry error kinds used by the modelled operations (spec §7). -/
inductive RegistryError where
  | Unauthorized
  | NotRegistered
deriving DecidableEq

/-- Store `rec` under key `agent`, overwriting an existing entry. -/
def setAgent : Registry → String → AgentRecord → Registry
  | [], agent, rec => [(agent, rec)]
  | (b, r) :: rest, agent, rec =>
      if b = agent then (agent, rec) :: rest else (b, r) :: setAgent rest agent rec

/-- Modelled from the spec: `register_agent(owner, agent, scopes, max_amount)`
(§4.1); the Rust Agent Registry contract is not in the SDK sources.  The
caller is authenticated as `owner`; overwriting a differently-owned record
fails `Unauthorized`; re-registration preserves the one-way `revoked` flag
(§3 invariant: once `revoked=true`, no future operation may clear it). -/
def register_agent (R : Registry) (owner agent : String)
    (scopes : List String) (maxAmount : ℕ) : Except RegistryError Registry :=
  match R.lookup agent with
  | some rec =>
      if rec.owner ≠ owner then .error .Unauthorized
      else .ok (setAgent R agent
        { owner := owner, scopes := scopes, maxAmount := maxAmount
          revoked := rec.revoked })
  | none =>
      .ok (setAgent R agent
        { owner := owner, scopes := scopes, maxAmount := maxAmount
          revoked := false })

/-- Modelled from the spec: `revoke_agent(owner, agent)` (§4.1); the Rust
Agent Registry contract is not in the SDK sources.  Fails `NotRegistered`
when no record exists, `Unauthorized` when the caller is not the recorded
owner; otherwise sets `revoked := true` permanently. -/
def revoke_agent (R : Registry) (owner agent : String) :
    Except RegistryError Registry :=
  match R.lookup agent with
  | none => .error .NotRegistered
  | some rec =>
      if rec.owner ≠ owner then .error .Unauthorized
      else .ok (setAgent R agent { rec with revoked := true })

/-- Modelled from the spec: `is_authorized(agent, action, amount)` (§4.1):
`true` iff a record exists, `revoked=false`, `action ∈ scopes` and
`amount ≤ max_amount`; absence yields `false`, never an error. -/
def is_authorized (R : Registry) (agent action : String) (amount : ℕ) : Bool :=
  match R.lookup agent with
  | none => false
  | some rec => !rec.revoked && rec.scopes.contains action && amount ≤ rec.maxAmount

/-- The Registry's state-mutating operations (spec §4.1), each performed by
an authenticated caller claiming to be the record's owner. -/
inductive RegistryOp where
  | register (owner agent : String) (scopes : List String) (maxAmount : ℕ)
  | revoke (owner agent : String)

/-- Apply one operation atomically: a failed operation leaves the state
untouched (spec §5/§7 atomicity). -/
def applyRegistryOp (R : Registry) : RegistryOp → Registry
  | .register owner agent scopes maxAmount =>
      match register_agent R owner agent scopes maxAmount with
      | .ok R' => R'
      | .error _ => R
  | .revoke owner agent =>
      match revoke_agent R owner agent with
      | .ok R' => R'
      | .error _ => R

/-- Apply a sequence of Registry operations. -/
def applyRegistryOps (R : Registry) (ops : List RegistryOp) : Registry :=
  ops.foldl applyRegistryOp R

/-- Modelled from the spec: `Ledger.update_score` score arithmetic (§4.2),
`new score = clamp(old_score + delta, 0, 100)`; the Rust Reputation Ledger
contract is not in the SDK sources. -/
def ledger_update_score (oldScore delta : ℤ) : ℤ :=
  clamp (oldScore + delta) 0 100

/-- Loan record (spec §3). -/
structure Loan where
  amount : ℕ
  created_at : ℤ
  due_at : ℤ
  repaid : Bool
  penalty_applied : Bool
deriving DecidableEq

/-- Loan Engine state for one borrowing agent: its loan record (absent = no
history) and the agent's ledger score. -/
structure EngineState where
  loan : Option Loan
  score : ℤ
deriving DecidableEq

/-- Loan Engine error kinds reached by `mark_overdue` (spec §4.3/§7). -/
inductive LoanError where
  | LoanNotFound
  | NotYetOverdue
  | PenaltyAlreadyApplied
deriving DecidableEq

/-- Modelled from the spec: the `mark_overdue(agent)` overdue-check /
default operation (§4.3); the Rust Loan Engine contract is not in the SDK
sources.  Fails `LoanNotFound` when no record exists or `repaid=true`;
`NotYetOverdue` when `now ≤ due_at + grace`; `PenaltyAlreadyApplied` when
`penalty_applied=true`; otherwise applies delta `−25`
(`REPUTATION_DELTAS.DEFAULT`) via `Ledger.update_score` and sets
`penalty_applied := true`, leaving the loan outstanding. -/
def mark_overdue (st : EngineState) (now grace : ℤ) :
    Except LoanError EngineState :=
  match st.loan with
  | none => .error .LoanNotFound
  | some l =>
      if l.repaid then .error .LoanNotFound
      else if now ≤ l.due_at + grace then .error .NotYetOverdue
      else if l.penalty_applied then .error .PenaltyAlreadyApplied
      else .ok { loan := some { l with penalty_applied := true }
                 score := ledger_update_score st.score REPUTATION_DELTAS.DEFAULT }

/-- Run `mark_overdue` atomically: a failed attempt leaves the state
untouched (spec §5/§7 atomicity). -/
def runMarkOverdue (st : EngineState) (now grace : ℤ) : EngineState :=
  match mark_overdue st now grace with
  | .ok st' => st'
  | .error _ => st

/-! ## Helper lemmas -/

lemma getTier_eq_of_findTier {s : ℚ} {t : ReputationTier}
    (h : findTier REPUTATION_TIERS s = some t) : getTier s = t := by
  unfold getTier
  rw [h]

lemma getTier_eq_default_of_findTier {s : ℚ}
    (h : findTier REPUTATION_TIERS s = none) : getTier s = tier0 := by
  unfold getTier
  rw [h]

lemma findTier_mem {l : List ReputationTier} {s : ℚ} {t : ReputationTier}
    (h : findTier l s = some t) : t ∈ l := by
  induction l with
  | nil => simp [findTier] at h
  | cons u us ih =>
      unfold findTier at h
      split at h
      · simp at h
        simp [h]
      · exact List.mem_cons_of_mem u (ih h)

lemma findTier_eq_none {l : List ReputationTier} {s : ℚ}
    (h : ∀ t ∈ l, ¬ (t.minScore ≤ s ∧ s ≤ t.maxScore)) : findTier l s = none := by
  induction l with
  | nil => rfl
  | cons u us ih =>
      unfold findTier
      rw [if_neg (h u (List.mem_cons_self u us))]
      exact ih fun t ht => h t (List.mem_cons_of_mem u ht)

lemma findTier_tier0 (s : ℚ) (h0 : 0 ≤ s) (h1 : s ≤ 49) :
    findTier REPUTATION_TIERS s = some tier0 := by
  unfold REPUTATION_TIERS
  simp only [findTier]
  rw [if_pos]
  exact ⟨h0, h1⟩

lemma findTier_tier1 (s : ℚ) (h0 : 50 ≤ s) (h1 : s ≤ 59) :
    findTier REPUTATION_TIERS s = some tier1 := by
  have c0 : ¬ (tier0.minScore ≤ s ∧ s ≤ tier0.maxScore) := by
    rintro ⟨-, hx⟩
    simp only [tier0] at hx
    linarith
  unfold REPUTATION_TIERS
  simp only [findTier]
  rw [if_neg c0, if_pos]
  exact ⟨h0, h1⟩

lemma findTier_tier2 (s : ℚ) (h0 : 60 ≤ s) (h1 : s ≤ 74) :
    findTier REPUTATION_TIERS s = some tier2 := by
  have c0 : ¬ (tier0.minScore ≤ s ∧ s ≤ tier0.maxScore) := by
    rintro ⟨-, hx⟩
    simp only [tier0] at hx
    linarith
  have c1 : ¬ (tier1.minScore ≤ s ∧ s ≤ tier1.maxScore) := by
    rintro ⟨-, hx⟩
    simp only [tier1] at hx
    linarith
  unfold REPUTATION_TIERS
  simp only [findTier]
  rw [if_neg c0, if_neg c1, if_pos]
  exact ⟨h0, h1⟩

lemma findTier_tier3 (s : ℚ) (h0 : 75 ≤ s) (h1 : s ≤ 89) :
    findTier REPUTATION_TIERS s = some tier3 := by
  have c0 : ¬ (tier0.minScore ≤ s ∧ s ≤ tier0.maxScore) := by
    rintro ⟨-, hx⟩
    simp only [tier0] at hx
    linarith
  have c1 : ¬ (tier1.minScore ≤ s ∧ s ≤ tier1.maxScore) := by
    rintro ⟨-, hx⟩
    simp only [tier1] at hx
    linarith
  have c2 : ¬ (tier2.minScore ≤ s ∧ s ≤ tier2.maxScore) := by
    rintro ⟨-, hx⟩
    simp only [tier2] at hx
    linarith
  unfold REPUTATION_TIERS
  simp only [findTier]
  rw [if_neg c0, if_neg c1, if_neg c2, if_pos]
  exact ⟨h0, h1⟩

lemma findTier_tier4 (s : ℚ) (h0 : 90 ≤ s) (h1 : s ≤ 100) :
    findTier REPUTATION_TIERS s = some tier4 := by
  have c0 : ¬ (tier0.minScore ≤ s ∧ s ≤ tier0.maxScore) := by
    rintro ⟨-, hx⟩
    simp only [tier0] at hx
    linarith
  have c1 : ¬ (tier1.minScore ≤ s ∧ s ≤ tier1.maxScore) := by
    rintro ⟨-, hx⟩
    simp only [tier1] at hx
    linarith
  have c2 : ¬ (tier2.minScore ≤ s ∧ s ≤ tier2.maxScore) := by
    rintro ⟨-, hx⟩
    simp only [tier2] at hx
    linarith
  have c3 : ¬ (tier3.minScore ≤ s ∧ s ≤ tier3.maxScore) := by
    rintro ⟨-, hx⟩
    simp only [tier3] at hx
    linarith
  unfold REPUTATION_TIERS
  simp only [findTier]
  rw [if_neg c0, if_neg c1, if_neg c2, if_neg c3, if_pos]
  exact ⟨h0, h1⟩

lemma getTier_eq_tier0 (s : ℚ) (h0 : 0 ≤ s) (h1 : s ≤ 49) : getTier s = tier0 :=
  getTier_eq_of_findTier (findTier_tier0 s h0 h1)

lemma getTier_eq_tier1 (s : ℚ) (h0 : 50 ≤ s) (h1 : s ≤ 59) : getTier s = tier1 :=
  getTier_eq_of_findTier (findTier_tier1 s h0 h1)

lemma getTier_eq_tier2 (s : ℚ) (h0 : 60 ≤ s) (h1 : s ≤ 74) : getTier s = tier2 :=
  getTier_eq_of_findTier (findTier_tier2 s h0 h1)

lemma getTier_eq_tier3 (s : ℚ) (h0 : 75 ≤ s) (h1 : s ≤ 89) : getTier s = tier3 :=
  getTier_eq_of_findTier (findTier_tier3 s h0 h1)

lemma getTier_eq_tier4 (s : ℚ) (h0 : 90 ≤ s) (h1 : s ≤ 100) : getTier s = tier4 :=
  getTier_eq_of_findTier (findTier_tier4 s h0 h1)

lemma getTier_mem (s : ℚ) : getTier s ∈ REPUTATION_TIERS := by
  unfold getTier
  cases hf : findTier REPUTATION_TIERS s with
  | none => simp [REPUTATION_TIERS]
  | some t => exact findTier_mem hf

lemma band_unique (s : ℤ) (t : ReputationTier) (ht : t ∈ REPUTATION_TIERS)
    (hmin : t.minScore ≤ (s:ℚ)) (hmax : (s:ℚ) ≤ t.maxScore) : t = getTier (s:ℚ) := by
  fin_cases ht
  · exact (getTier_eq_tier0 _ hmin hmax).symm
  · exact (getTier_eq_tier1 _ hmin hmax).symm
  · exact (getTier_eq_tier2 _ hmin hmax).symm
  · exact (getTier_eq_tier3 _ hmin hmax).symm
  · exact (getTier_eq_tier4 _ hmin hmax).symm

lemma max_min_eq_clamp (x : ℚ) : max 0 (min 100 x) = clamp x 0 100 := by
  unfold clamp
  rw [max_min_distrib_left]
  norm_num

/-! ## Claims -/

/-- C1: For every current score in [0,100] and every integer delta,
`ReputationManager.predictNewScore` produces exactly
`clamp(old_score + delta, 0, 100)` — the spec's clamp — and the result
always lies in the closed range [0,100]. -/
theorem predictNewScore_clamps (s d : ℤ) (h0 : 0 ≤ s) (h1 : s ≤ 100) :
    (predictNewScore (s:ℚ) (d:ℚ)).score = clamp ((s:ℚ) + (d:ℚ)) 0 100 ∧
    0 ≤ (predictNewScore (s:ℚ) (d:ℚ)).score ∧
    (predictNewScore (s:ℚ) (d:ℚ)).score ≤ 100 := by
  unfold predictNewScore
  refine ⟨max_min_eq_clamp _, le_max_left _ _, ?_⟩
  exact max_le (by norm_num) (min_le_left _ _)

/-- Witness for C1 at score 50 and delta −60: the clamped result is 0. -/
theorem predictNewScore_clamps_witness :
    ((predictNewScore ((50:ℤ):ℚ) ((-60:ℤ):ℚ)).score = clamp (((50:ℤ):ℚ) + ((-60:ℤ):ℚ)) 0 100 ∧
      0 ≤ (predictNewScore ((50:ℤ):ℚ) ((-60:ℤ):ℚ)).score ∧
      (predictNewScore ((50:ℤ):ℚ) ((-60:ℤ):ℚ)).score ≤ 100) ∧
    (predictNewScore ((50:ℤ):ℚ) ((-60:ℤ):ℚ)).score = 0 := by
  refine ⟨predictNewScore_clamps 50 (-60) (by norm_num) (by norm_num), ?_⟩
  norm_num [predictNewScore]

/-- C2: for every integer score in [0,100], `getTier` returns a band of
`REPUTATION_TIERS` containing the score, that band is the only one
containing it, the five bands and loan limits are exactly as tabulated, and
`getMaxLoanAmount` returns the containing band's `maxLoanAmount`. -/
theorem getTier_bands_exact (s : ℤ) (h0 : 0 ≤ s) (h1 : s ≤ 100) :
    (getTier (s:ℚ) ∈ REPUTATION_TIERS ∧
      (getTier (s:ℚ)).minScore ≤ (s:ℚ) ∧ (s:ℚ) ≤ (getTier (s:ℚ)).maxScore) ∧
    (∀ t ∈ REPUTATION_TIERS, t.minScore ≤ (s:ℚ) → (s:ℚ) ≤ t.maxScore →
      t = getTier (s:ℚ)) ∧
    (s ≤ 49 → getTier (s:ℚ) = tier0 ∧ (getTier (s:ℚ)).tier = 0 ∧
      (getTier (s:ℚ)).name = "No Credit" ∧ (getTier (s:ℚ)).maxLoanAmount = 0) ∧
    (50 ≤ s → s ≤ 59 → getTier (s:ℚ) = tier1 ∧ (getTier (s:ℚ)).tier = 1 ∧
      (getTier (s:ℚ)).name = "Basic" ∧ (getTier (s:ℚ)).maxLoanAmount = 1/2) ∧
    (60 ≤ s → s ≤ 74 → getTier (s:ℚ) = tier2 ∧ (getTier (s:ℚ)).tier = 2 ∧
      (getTier (s:ℚ)).name = "Good" ∧ (getTier (s:ℚ)).maxLoanAmount = 2) ∧
    (75 ≤ s → s ≤ 89 → getTier (s:ℚ) = tier3 ∧ (getTier (s:ℚ)).tier = 3 ∧
      (getTier (s:ℚ)).name = "Excellent" ∧ (getTier (s:ℚ)).maxLoanAmount = 5) ∧
    (90 ≤ s → getTier (s:ℚ) = tier4 ∧ (getTier (s:ℚ)).tier = 4 ∧
      (getTier (s:ℚ)).name = "Elite" ∧ (getTier (s:ℚ)).maxLoanAmount = 10) ∧
    getMaxLoanAmount (s:ℚ) = (getTier (s:ℚ)).maxLoanAmount := by
  refine ⟨?_, fun t ht hmin hmax => band_unique s t ht hmin hmax, ?_, ?_, ?_, ?_, ?_, rfl⟩
  · rcases (by omega :
        (0 ≤ s ∧ s ≤ 49) ∨ (50 ≤ s ∧ s ≤ 59) ∨ (60 ≤ s ∧ s ≤ 74) ∨
        (75 ≤ s ∧ s ≤ 89) ∨ (90 ≤ s ∧ s ≤ 100)) with h | h | h | h | h
    · rw [getTier_eq_tier0 _ (by exact_mod_cast h.1) (by exact_mod_cast h.2)]
      exact ⟨List.mem_cons_self _ _,
        by simp only [tier0]; exact_mod_cast h.1,
        by simp only [tier0]; exact_mod_cast h.2⟩
    · rw [getTier_eq_tier1 _ (by exact_mod_cast h.1) (by exact_mod_cast h.2)]
      refine ⟨by simp [REPUTATION_TIERS],
        by simp only [tier1]; exact_mod_cast h.1,
        by simp only [tier1]; exact_mod_cast h.2⟩
    · rw [getTier_eq_tier2 _ (by exact_mod_cast h.1) (by exact_mod_cast h.2)]
      refine ⟨by simp [REPUTATION_TIERS],
        by simp only [tier2]; exact_mod_cast h.1,
        by simp only [tier2]; exact_mod_cast h.2⟩
    · rw [getTier_eq_tier3 _ (by exact_mod_cast h.1) (by exact_mod_cast h.2)]
      refine ⟨by simp [REPUTATION_TIERS],
        by simp only [tier3]; exact_mod_cast h.1,
        by simp only [tier3]; exact_mod_cast h.2⟩
    · rw [getTier_eq_tier4 _ (by exact_mod_cast h.1) (by exact_mod_cast h.2)]
      refine ⟨by simp [REPUTATION_TIERS],
        by simp only [tier4]; exact_mod_cast h.1,
        by simp only [tier4]; exact_mod_cast h.2⟩
  · intro hs
    rw [getTier_eq_tier0 _ (by exact_mod_cast h0) (by exact_mod_cast hs)]
    exact ⟨rfl, rfl, rfl, rfl⟩
  · intro ha hb
    rw [getTier_eq_tier1 _ (by exact_mod_cast ha) (by exact_mod_cast hb)]
    exact ⟨rfl, rfl, rfl, rfl⟩
  · intro ha hb
    rw [getTier_eq_tier2 _ (by exact_mod_cast ha) (by exact_mod_cast hb)]
    exact ⟨rfl, rfl, rfl, rfl⟩
  · intro ha hb
    rw [getTier_eq_tier3 _ (by exact_mod_cast ha) (by exact_mod_cast hb)]
    exact ⟨rfl, rfl, rfl, rfl⟩
  · intro ha
    rw [getTier_eq_tier4 _ (by exact_mod_cast ha) (by exact_mod_cast h1)]
    exact ⟨rfl, rfl, rfl, rfl⟩

/-- Witness for C2 at score 62: the containing band is tier 2 ("Good") with
max loan amount 2. -/
theorem getTier_bands_exact_witness :
    getTier ((62:ℤ):ℚ) = tier2 ∧ (getTier ((62:ℤ):ℚ)).name = "Good" ∧
    (getTier ((62:ℤ):ℚ)).maxLoanAmount = 2 ∧
    getMaxLoanAmount ((62:ℤ):ℚ) = (getTier ((62:ℤ):ℚ)).maxLoanAmount := by
  have h := getTier_bands_exact 62 (by norm_num) (by norm_num)
  obtain ⟨heq, -, hname, hmax⟩ := h.2.2.2.2.1 (by norm_num) (by norm_num)
  exact ⟨heq, hname, hmax, h.2.2.2.2.2.2.2⟩

/-- C9: `getTier` is total — any score contained in no band (negative,
above 100, or in a gap between adjacent bands such as 49.5) falls through to
the tier 0 "No Credit" band; in particular any score above 100 yields
tier 0 with max loan amount 0, not the Elite tier. -/
theorem getTier_total_fallback :
    (∀ s : ℚ, (∀ t ∈ REPUTATION_TIERS, ¬ (t.minScore ≤ s ∧ s ≤ t.maxScore)) →
      getTier s = tier0) ∧
    (∀ s : ℚ, s < 0 → getTier s = tier0) ∧
    (∀ s : ℚ, 100 < s → getTier s = tier0 ∧ getMaxLoanAmount s = 0 ∧
      getTier s ≠ tier4) ∧
    (∀ s : ℚ, 49 < s → s < 50 → getTier s = tier0) := by
  have hnone : ∀ s : ℚ,
      (∀ t ∈ REPUTATION_TIERS, ¬ (t.minScore ≤ s ∧ s ≤ t.maxScore)) →
      getTier s = tier0 := fun s h =>
    getTier_eq_default_of_findTier (findTier_eq_none h)
  have htier04 : tier0 ≠ tier4 := by
    intro h
    have := congrArg ReputationTier.tier h
    simp [tier0, tier4] at this
  refine ⟨hnone, ?_, ?_, ?_⟩
  · intro s hs
    refine hnone s ?_
    intro t ht
    fin_cases ht <;> rintro ⟨hx, hy⟩ <;>
      simp only [tier0, tier1, tier2, tier3, tier4] at hx hy <;> linarith
  · intro s hs
    have h0 : getTier s = tier0 := by
      refine hnone s ?_
      intro t ht
      fin_cases ht <;> rintro ⟨hx, hy⟩ <;>
        simp only [tier0, tier1, tier2, tier3, tier4] at hx hy <;> linarith
    refine ⟨h0, ?_, ?_⟩
    · unfold getMaxLoanAmount
      rw [h0]
      norm_num [tier0]
    · rw [h0]
      exact htier04
  · intro s ha hb
    refine hnone s ?_
    intro t ht
    fin_cases ht <;> rintro ⟨hx, hy⟩ <;>
      simp only [tier0, tier1, tier2, tier3, tier4] at hx hy <;> linarith

/-- Witness for C9 at scores 150, −5 and 49.5: all fall through to the
tier 0 band; 150 yields max loan amount 0. -/
theorem getTier_total_fallback_witness :
    getTier 150 = tier0 ∧ getMaxLoanAmount 150 = 0 ∧ getTier 150 ≠ tier4 ∧
    getTier (-5) = tier0 ∧ getTier (99/2 : ℚ) = tier0 := by
  have h := getTier_total_fallback
  obtain ⟨ha, hb, hc⟩ := h.2.2.1 150 (by norm_num)
  exact ⟨ha, hb, hc, h.2.1 (-5) (by norm_num),
    h.2.2.2 (99/2) (by norm_num) (by norm_num)⟩

/-- C3 counterexample: an unauthorized agent with score 40 < 60 requesting
amount 1 is denied, but the reported reason is the authorization failure
("Agent not authorized or amount exceeds limit"), not InsufficientReputation
— `canPerformAction` checks authorization before reputation. -/
theorem processLoanRequest_auth_before_reputation :
    (40:ℚ) < 60 ∧
    (processLoanRequest
        ⟨false, some "Agent not authorized or amount exceeds limit"⟩ 40 1).approved
      = false ∧
    (processLoanRequest
        ⟨false, some "Agent not authorized or amount exceeds limit"⟩ 40 1).reason
      = some (.authFailure (some "Agent not authorized or amount exceeds limit")) ∧
    (processLoanRequest
        ⟨false, some "Agent not authorized or amount exceeds limit"⟩ 40 1).reason
      ≠ some (.insufficientReputation 60 40) := by
  refine ⟨by norm_num, ?_, ?_, ?_⟩ <;>
    simp [processLoanRequest, canPerformAction]

/-- C3 (amended): for every agent and amount, a loan request is denied
whenever the agent's score is below 60, regardless of pool liquidity; the
reported error is InsufficientReputation exactly when the agent is
authorized, while an unauthorized agent is denied with the authorization
failure reason instead (authorization is checked before reputation). -/
theorem processLoanRequest_low_score_denied (authResult : AuthorizationResult)
    (score amount : ℚ) (h : score < 60) :
    (processLoanRequest authResult score amount).approved = false ∧
    (authResult.authorized = true →
      (processLoanRequest authResult score amount).reason
        = some (.insufficientReputation 60 score)) ∧
    (authResult.authorized = false →
      (processLoanRequest authResult score amount).reason
        = some (.authFailure authResult.reason)) := by
  obtain ⟨auth, reason⟩ := authResult
  cases auth <;>
    simp [processLoanRequest, canPerformAction, h]

/-- Witness for C3 (amended) at an authorized agent with score 40 and
amount 1: denied with InsufficientReputation. -/
theorem processLoanRequest_low_score_denied_witness :
    (40:ℚ) < 60 ∧
    (processLoanRequest ⟨true, none⟩ 40 1).approved = false ∧
    (processLoanRequest ⟨true, none⟩ 40 1).reason
      = some (.insufficientReputation 60 40) := by
  have h := processLoanRequest_low_score_denied ⟨true, none⟩ 40 1 (by norm_num)
  exact ⟨by norm_num, h.1, h.2.1 rfl⟩

/-- C4: composing the spec's repayment-timing classification with
`processLoanRepayment`'s delta selection: repayment at or before 12 hours
ahead of the due date yields delta +12 (early), repayment after that point
up to the due date yields +8 (on-time), and repayment after the due date
within the grace period yields −5 (late) — matching the `REPUTATION_DELTAS`
entries EARLY_PAYMENT = 12, ON_TIME_PAYMENT = 8 and LATE_PAYMENT = −5. -/
theorem repayment_timing_deltas (now dueAt grace : ℤ) (tx : TxResult) :
    (now ≤ dueAt - TWELVE_HOURS →
      (processLoanRepayment (repayIsEarly now dueAt) (repayIsLate now dueAt)
        (.ok tx)).reputationDelta = REPUTATION_DELTAS.EARLY_PAYMENT) ∧
    (dueAt - TWELVE_HOURS < now → now ≤ dueAt →
      (processLoanRepayment (repayIsEarly now dueAt) (repayIsLate now dueAt)
        (.ok tx)).reputationDelta = REPUTATION_DELTAS.ON_TIME_PAYMENT) ∧
    (dueAt < now → now ≤ dueAt + grace →
      (processLoanRepayment (repayIsEarly now dueAt) (repayIsLate now dueAt)
        (.ok tx)).reputationDelta = REPUTATION_DELTAS.LATE_PAYMENT) ∧
    REPUTATION_DELTAS.EARLY_PAYMENT = 12 ∧
    REPUTATION_DELTAS.ON_TIME_PAYMENT = 8 ∧
    REPUTATION_DELTAS.LATE_PAYMENT = -5 := by
  refine ⟨?_, ?_, ?_, rfl, rfl, rfl⟩
  · intro h
    have he : repayIsEarly now dueAt = true := by
      unfold repayIsEarly
      exact decide_eq_true h
    simp [processLoanRepayment, he, REPUTATION_DELTAS]
  · intro h1 h2
    have he : repayIsEarly now dueAt = false := by
      unfold repayIsEarly
      exact decide_eq_false (by omega)
    have hl : repayIsLate now dueAt = false := by
      unfold repayIsLate
      exact decide_eq_false (by omega)
    simp [processLoanRepayment, he, hl, REPUTATION_DELTAS]
  · intro h1 h2
    have he : repayIsEarly now dueAt = false := by
      unfold repayIsEarly
      have : (0:ℤ) < TWELVE_HOURS := by norm_num [TWELVE_HOURS]
      exact decide_eq_false (by omega)
    have hl : repayIsLate now dueAt = true := by
      unfold repayIsLate
      exact decide_eq_true h1
    simp [processLoanRepayment, he, hl, REPUTATION_DELTAS]

/-- Witness for C4: repaying 43300 seconds before a due date (more than 12
hours ahead) yields the early-payment delta +12. -/
theorem repayment_timing_deltas_witness :
    ((0:ℤ) ≤ 43300 - TWELVE_HOURS) ∧
    (processLoanRepayment (repayIsEarly 0 43300) (repayIsLate 0 43300)
      (.ok ⟨"", true⟩)).reputationDelta = REPUTATION_DELTAS.EARLY_PAYMENT ∧
    REPUTATION_DELTAS.EARLY_PAYMENT = 12 := by
  have hpre : (0:ℤ) ≤ 43300 - TWELVE_HOURS := by norm_num [TWELVE_HOURS]
  have h := repayment_timing_deltas 0 43300 0 ⟨"", true⟩
  exact ⟨hpre, h.1 hpre, h.2.2.2.1⟩

/-- C6: the read-only SDK queries never fail: for every underlying RPC
outcome they return a value, and absence of data or an error yields the
defaults — `isAuthorized` returns `authorized: false` on a thrown error,
`getScore` returns score 50 on a thrown error or non-numeric result, and
`getInfo` returns null on a thrown error. -/
theorem read_queries_safe_defaults :
    (∀ msg : String, isAuthorized (.error msg)
      = ⟨false, some ("Authorization check failed: " ++ msg)⟩) ∧
    (∀ msg : String, (getScore (.error msg)).score = 50) ∧
    (∀ v : JSVal, (∀ q : ℚ, v ≠ .num q) → (getScore (.ok v)).score = 50) ∧
    (∀ q : ℚ, (getScore (.ok (.num q))).score = q) ∧
    (∀ msg : String, getInfo (.error msg) = .null) := by
  refine ⟨fun msg => rfl, fun msg => rfl, ?_, fun q => rfl, fun msg => rfl⟩
  intro v hv
  cases v with
  | num q => exact absurd rfl (hv q)
  | str s => rfl
  | boolean b => rfl
  | null => rfl
  | undef => rfl

/-- Witness for C6: a thrown RPC error yields `authorized: false`, score 50
and null; a non-numeric (`null`) score result also yields 50. -/
theorem read_queries_safe_defaults_witness :
    isAuthorized (.error "boom")
      = ⟨false, some ("Authorization check failed: " ++ "boom")⟩ ∧
    (getScore (.error "boom")).score = 50 ∧
    (getScore (.ok .null)).score = 50 ∧
    getInfo (.error "boom") = .null := by
  have h := read_queries_safe_defaults
  exact ⟨h.1 "boom", h.2.1 "boom",
    h.2.2.1 .null (fun q hq => by cases hq), h.2.2.2.2 "boom"⟩

lemma lookup_setAgent_self (R : Registry) (a : String) (rec : AgentRecord) :
    List.lookup a (setAgent R a rec) = some rec := by
  induction R with
  | nil => simp [setAgent, List.lookup_cons]
  | cons p rest ih =>
      obtain ⟨b, r⟩ := p
      by_cases hb : b = a
      · simp [setAgent, hb, List.lookup_cons]
      · simp [setAgent, hb, List.lookup_cons, beq_false_of_ne (Ne.symm hb), ih]

lemma lookup_setAgent_other (R : Registry) (a b : String) (rec : AgentRecord)
    (hne : a ≠ b) : List.lookup b (setAgent R a rec) = List.lookup b R := by
  induction R with
  | nil => simp [setAgent, List.lookup_cons, beq_false_of_ne (Ne.symm hne)]
  | cons p rest ih =>
      obtain ⟨c, r⟩ := p
      by_cases hc : c = a
      · subst hc
        simp [setAgent, List.lookup_cons, beq_false_of_ne (Ne.symm hne)]
      · simp [setAgent, hc, List.lookup_cons, ih]

/-- A successful `register_agent` writes a record whose `revoked` flag is
that of the overwritten record (or `false` for a fresh agent). -/
lemma register_agent_ok {R R' : Registry} {owner a : String}
    {scopes : List String} {maxAmount : ℕ}
    (h : register_agent R owner a scopes maxAmount = .ok R') :
    (∃ rec, List.lookup a R = some rec ∧
      R' = setAgent R a ⟨owner, scopes, maxAmount, rec.revoked⟩) ∨
    (List.lookup a R = none ∧
      R' = setAgent R a ⟨owner, scopes, maxAmount, false⟩) := by
  unfold register_agent at h
  cases hl : List.lookup a R with
  | none =>
      rw [hl] at h
      dsimp only at h
      cases h
      exact Or.inr ⟨rfl, rfl⟩
  | some rec =>
      rw [hl] at h
      dsimp only at h
      by_cases how : rec.owner ≠ owner
      · rw [if_pos how] at h
        cases h
      · rw [if_neg how] at h
        cases h
        exact Or.inl ⟨rec, rfl, rfl⟩

/-- A successful `revoke_agent` writes the existing record with
`revoked := true`. -/
lemma revoke_agent_ok {R R' : Registry} {owner a : String}
    (h : revoke_agent R owner a = .ok R') :
    ∃ rec, List.lookup a R = some rec ∧
      R' = setAgent R a { rec with revoked := true } := by
  unfold revoke_agent at h
  cases hl : List.lookup a R with
  | none =>
      rw [hl] at h
      dsimp only at h
      cases h
  | some rec =>
      rw [hl] at h
      dsimp only at h
      by_cases how : rec.owner ≠ owner
      · rw [if_pos how] at h
        cases h
      · rw [if_neg how] at h
        cases h
        exact ⟨rec, rfl, rfl⟩

/-- The revoked flag of `agent` survives any single Registry operation. -/
lemma revoked_preserved_op (R : Registry) (agent : String) (op : RegistryOp)
    (h : ∃ rec, List.lookup agent R = some rec ∧ rec.revoked = true) :
    ∃ rec, List.lookup agent (applyRegistryOp R op) = some rec ∧
      rec.revoked = true := by
  obtain ⟨rec, hrec, hrev⟩ := h
  cases op with
  | register owner a scopes maxAmount =>
      show ∃ r, List.lookup agent
        (match register_agent R owner a scopes maxAmount with
          | .ok R' => R' | .error _ => R) = some r ∧ r.revoked = true
      cases hre : register_agent R owner a scopes maxAmount with
      | error e => exact ⟨rec, hrec, hrev⟩
      | ok R' =>
          rcases register_agent_ok hre with ⟨rec', hl, hR'⟩ | ⟨hl, hR'⟩
          · by_cases ha : a = agent
            · subst ha
              rw [hl] at hrec
              cases hrec
              subst hR'
              exact ⟨_, lookup_setAgent_self _ _ _, hrev⟩
            · subst hR'
              exact ⟨rec, by rw [lookup_setAgent_other _ _ _ _ ha]; exact hrec, hrev⟩
          · by_cases ha : a = agent
            · subst ha
              rw [hl] at hrec
              cases hrec
            · subst hR'
              exact ⟨rec, by rw [lookup_setAgent_other _ _ _ _ ha]; exact hrec, hrev⟩
  | revoke owner a =>
      show ∃ r, List.lookup agent
        (match revoke_agent R owner a with
          | .ok R' => R' | .error _ => R) = some r ∧ r.revoked = true
      cases hre : revoke_agent R owner a with
      | error e => exact ⟨rec, hrec, hrev⟩
      | ok R' =>
          obtain ⟨rec', hl, hR'⟩ := revoke_agent_ok hre
          by_cases ha : a = agent
          · subst ha
            subst hR'
            exact ⟨_, lookup_setAgent_self _ _ _, rfl⟩
          · subst hR'
            exact ⟨rec, by rw [lookup_setAgent_other _ _ _ _ ha]; exact hrec, hrev⟩

lemma revoked_preserved_ops (R : Registry) (agent : String)
    (ops : List RegistryOp)
    (h : ∃ rec, List.lookup agent R = some rec ∧ rec.revoked = true) :
    ∃ rec, List.lookup agent (applyRegistryOps R ops) = some rec ∧
      rec.revoked = true := by
  induction ops generalizing R with
  | nil => exact h
  | cons op rest ih => exact ih _ (revoked_preserved_op R agent op h)

/-- C7: once an agent is successfully revoked, no subsequent sequence of
Registry operations (re-registrations or revocations, by any caller) clears
the `revoked` flag, and `is_authorized` returns false for every action and
amount from that point on. -/
theorem revoked_forever (R R' : Registry) (owner agent : String)
    (hrev : revoke_agent R owner agent = .ok R') (ops : List RegistryOp) :
    (∃ rec, List.lookup agent (applyRegistryOps R' ops) = some rec ∧
      rec.revoked = true) ∧
    ∀ action amount,
      is_authorized (applyRegistryOps R' ops) agent action amount = false := by
  have h0 : ∃ rec, List.lookup agent R' = some rec ∧ rec.revoked = true := by
    obtain ⟨rec, -, hR'⟩ := revoke_agent_ok hrev
    subst hR'
    exact ⟨_, lookup_setAgent_self _ _ _, rfl⟩
  have h1 := revoked_preserved_ops R' agent ops h0
  refine ⟨h1, ?_⟩
  intro action amount
  obtain ⟨rec, hrec, hflag⟩ := h1
  unfold is_authorized
  rw [hrec]
  dsimp only
  rw [hflag]
  simp

/-- Witness for C7: agent "A" (owner "O") is revoked, then re-registered by
its owner; the revoked flag survives and authorization stays false. -/
theorem revoked_forever_witness :
    revoke_agent [("A", ⟨"O", ["borrow"], 100, false⟩)] "O" "A"
      = .ok [("A", ⟨"O", ["borrow"], 100, true⟩)] ∧
    is_authorized
      (applyRegistryOps [("A", ⟨"O", ["borrow"], 100, true⟩)]
        [.register "O" "A" ["borrow", "repay"] 500])
      "A" "borrow" 10 = false := by
  have hrev : revoke_agent [("A", ⟨"O", ["borrow"], 100, false⟩)] "O" "A"
      = .ok [("A", ⟨"O", ["borrow"], 100, true⟩)] := by
    rfl
  have h := revoked_forever _ _ "O" "A" hrev
    [.register "O" "A" ["borrow", "repay"] 500]
  exact ⟨hrev, h.2 "borrow" 10⟩

/-- C5: the default penalty is applied exactly once per loan — a first
`mark_overdue` on an unpaid, overdue loan applies the −25 delta
(`REPUTATION_DELTAS.DEFAULT`, the same delta `processLoanDefault` submits)
and sets `penalty_applied`; a second application fails with
`PenaltyAlreadyApplied` and, whatever its timing, changes nothing. -/
theorem mark_overdue_idempotent (st : EngineState) (l : Loan)
    (now1 now2 grace : ℤ) (hl : st.loan = some l) (hrep : l.repaid = false)
    (hpen : l.penalty_applied = false) (h1 : l.due_at + grace < now1)
    (h2 : l.due_at + grace < now2) :
    (runMarkOverdue st now1 grace).score
      = ledger_update_score st.score REPUTATION_DELTAS.DEFAULT ∧
    ((runMarkOverdue st now1 grace).loan.map Loan.penalty_applied)
      = some true ∧
    mark_overdue (runMarkOverdue st now1 grace) now2 grace
      = .error .PenaltyAlreadyApplied ∧
    (∀ now3 : ℤ, runMarkOverdue (runMarkOverdue st now1 grace) now3 grace
      = runMarkOverdue st now1 grace) ∧
    REPUTATION_DELTAS.DEFAULT = -25 ∧
    processLoanDefaultDelta = REPUTATION_DELTAS.DEFAULT := by
  have hfirst : mark_overdue st now1 grace
      = .ok { loan := some { l with penalty_applied := true }
              score := ledger_update_score st.score REPUTATION_DELTAS.DEFAULT } := by
    unfold mark_overdue
    rw [hl]
    dsimp only
    split_ifs with hA hB hC
    · simp [hrep] at hA
    · exfalso
      omega
    · simp [hpen] at hC
    · rfl
  have hrun : runMarkOverdue st now1 grace
      = { loan := some { l with penalty_applied := true }
          score := ledger_update_score st.score REPUTATION_DELTAS.DEFAULT } := by
    unfold runMarkOverdue
    rw [hfirst]
  have hsecond : ∀ now3 : ℤ, now3 > l.due_at + grace →
      mark_overdue (runMarkOverdue st now1 grace) now3 grace
        = .error .PenaltyAlreadyApplied := by
    intro now3 h3
    rw [hrun]
    unfold mark_overdue
    dsimp only
    split_ifs with hA hB hC
    · simp [hrep] at hA
    · exfalso
      omega
    · rfl
    · exact absurd rfl hC
  have hnotyet : ∀ now3 : ℤ, ¬ now3 > l.due_at + grace →
      mark_overdue (runMarkOverdue st now1 grace) now3 grace
        = .error .NotYetOverdue := by
    intro now3 h3
    rw [hrun]
    unfold mark_overdue
    dsimp only
    split_ifs with hA hB hC
    · simp [hrep] at hA
    · rfl
    · exfalso
      omega
    · exfalso
      omega
  refine ⟨by rw [hrun], by rw [hrun]; rfl, hsecond now2 h2, ?_, rfl, rfl⟩
  intro now3
  have hunf : runMarkOverdue (runMarkOverdue st now1 grace) now3 grace
      = match mark_overdue (runMarkOverdue st now1 grace) now3 grace with
        | .ok st' => st'
        | .error _ => runMarkOverdue st now1 grace := rfl
  by_cases h3 : now3 > l.due_at + grace
  · rw [hunf, hsecond now3 h3]
  · rw [hunf, hnotyet now3 h3]

/-- Witness for C5: a loan due at 1000 with grace 500, checked at 2000 and
again at 3000: the −25 delta lands once (score 70 → 45) and the second check
fails with `PenaltyAlreadyApplied`. -/
theorem mark_overdue_idempotent_witness :
    (runMarkOverdue ⟨some ⟨100, 0, 1000, false, false⟩, 70⟩ 2000 500).score
      = ledger_update_score 70 REPUTATION_DELTAS.DEFAULT ∧
    (runMarkOverdue ⟨some ⟨100, 0, 1000, false, false⟩, 70⟩ 2000 500).score = 45 ∧
    mark_overdue (runMarkOverdue ⟨some ⟨100, 0, 1000, false, false⟩, 70⟩ 2000 500)
      3000 500 = .error .PenaltyAlreadyApplied := by
  have h := mark_overdue_idempotent ⟨some ⟨100, 0, 1000, false, false⟩, 70⟩
    ⟨100, 0, 1000, false, false⟩ 2000 3000 500 rfl rfl rfl (by norm_num) (by norm_num)
  refine ⟨h.1, ?_, h.2.2.1⟩
  rw [h.1]
  show clamp (70 + REPUTATION_DELTAS.DEFAULT) 0 100 = 45
  unfold REPUTATION_DELTAS clamp
  dsimp only
  omega

/-- C8: every state-mutating SDK entry point (`register`, `revoke`,
`updateScore`) called with `signAndSend` not explicitly `false` throws a
`DACTPError` and submits nothing; called with `signAndSend: false` it
returns `success: true` carrying the unsigned transaction XDR in the `hash`
field, again submitting nothing (no code path in these methods signs or
submits a transaction). -/
theorem mutating_sdk_never_submits (options : TxOptions)
    (buildResult : Except String String) (xdr : String) :
    (options.signAndSend ≠ some false →
      register options buildResult
        = .error ⟨"Agent registration failed: " ++ walletNotImplementedMsg,
            .CONTRACT_ERROR⟩ ∧
      revoke options buildResult
        = .error ⟨"Agent revocation failed: " ++ walletNotImplementedMsg,
            .CONTRACT_ERROR⟩ ∧
      updateScore options buildResult
        = .error ⟨"Reputation update failed: " ++ walletNotImplementedMsg,
            .CONTRACT_ERROR⟩) ∧
    (options.signAndSend = some false → buildResult = .ok xdr →
      register options buildResult = .ok ⟨xdr, true⟩ ∧
      revoke options buildResult = .ok ⟨xdr, true⟩ ∧
      updateScore options buildResult = .ok ⟨xdr, true⟩) := by
  constructor
  · intro h
    unfold register revoke updateScore mutatingSdkCall
    rw [if_neg h, if_neg h, if_neg h]
    exact ⟨rfl, rfl, rfl⟩
  · intro h hb
    subst hb
    unfold register revoke updateScore mutatingSdkCall
    rw [if_pos h, if_pos h, if_pos h]
    exact ⟨rfl, rfl, rfl⟩

/-- Witness for C8: with `signAndSend: true` all three methods throw the
CONTRACT_ERROR-wrapped wallet error; with `signAndSend: false` all three
return the unsigned XDR with `success: true`. -/
theorem mutating_sdk_never_submits_witness :
    (register ⟨some true⟩ (.ok "XDR")
      = .error ⟨"Agent registration failed: " ++ walletNotImplementedMsg,
          .CONTRACT_ERROR⟩) ∧
    (register ⟨some false⟩ (.ok "XDR") = .ok ⟨"XDR", true⟩ ∧
      revoke ⟨some false⟩ (.ok "XDR") = .ok ⟨"XDR", true⟩ ∧
      updateScore ⟨some false⟩ (.ok "XDR") = .ok ⟨"XDR", true⟩) := by
  refine ⟨?_, (mutating_sdk_never_submits ⟨some false⟩ (.ok "XDR") "XDR").2 rfl rfl⟩
  exact ((mutating_sdk_never_submits ⟨some true⟩ (.ok "XDR") "XDR").1 (by simp)).1

lemma jsStartsWith_single (a : List Char) (c : Char) :
    jsStartsWith a [c] = true ↔ a.head? = some c := by
  cases a with
  | nil =>
      refine ⟨fun h => ?_, fun h => ?_⟩
      · exact absurd h Bool.false_ne_true
      · exact Option.noConfusion h
  | cons x xs =>
      simp only [jsStartsWith, List.isPrefixOf_cons₂, List.isPrefixOf_nil_left,
        Bool.and_true, beq_iff_eq, List.head?_cons, Option.some.injEq]
      exact eq_comm

/-- C10: address validation at the SDK interface is purely syntactic —
`isValidAgentAddress` accepts exactly the strings of length 56 whose first
character is 'G', and `isValidContractAddress` exactly those of length 56
starting with 'C'; no checksum or alphabet condition appears. -/
theorem address_validation_syntactic :
    (∀ a : List Char, isValidAgentAddress a = true ↔
      (a.length = 56 ∧ a.head? = some 'G')) ∧
    (∀ a : List Char, isValidContractAddress a = true ↔
      (a.length = 56 ∧ a.head? = some 'C')) := by
  constructor
  · intro a
    simp only [isValidAgentAddress, Bool.and_eq_true, beq_iff_eq,
      jsStartsWith_single]
    tauto
  · intro a
    simp only [isValidContractAddress, Bool.and_eq_true, beq_iff_eq,
      jsStartsWith_single]
    tauto

/-- Witness for C10: a concrete 56-character G-address is accepted by
`isValidAgentAddress` and the characterization agrees. -/
theorem address_validation_syntactic_witness :
    isValidAgentAddress
        "GBJNTJ56V23KNAG4LBPKLQRVC4GSJ75ICBFQYNI4TQBHQNAYZK4SE7ON".data = true ∧
    isValidContractAddress
        "GBJNTJ56V23KNAG4LBPKLQRVC4GSJ75ICBFQYNI4TQBHQNAYZK4SE7ON".data = false := by
  constructor
  · exact (address_validation_syntactic.1 _).mpr (by decide)
  · have h := address_validation_syntactic.2
      "GBJNTJ56V23KNAG4LBPKLQRVC4GSJ75ICBFQYNI4TQBHQNAYZK4SE7ON".data
    rcases hb : isValidContractAddress
        "GBJNTJ56V23KNAG4LBPKLQRVC4GSJ75ICBFQYNI4TQBHQNAYZK4SE7ON".data with - | -
    · rfl
    · have := (h.mp hb).2
      exact absurd this (by decide)

end DactpSpec
